import Mathlib

/-!
Shallow embedding of `controllers/machine_controller_phases.go` from the
cluster-api repository: the Machine phase deriver (`reconcilePhase`), the
generic external-object reconciler (`reconcileExternal`) and the two
orchestrators layered on it (`reconcileBootstrap`, `reconcileInfrastructure`).

External collaborators (the object store, the patch helper, the watch
registrar, the pause and readiness capabilities, the structural field
accessors) are not part of the source file; following the interface contracts
they satisfy, each call site receives the collaborator response as an explicit
environment field, and the embedded functions record the calls they make in an
event trace.  Go errors are modelled by an explicit error datatype mirroring
the pkg/errors wrap discipline used by the source.
-/

namespace CAPI

/-- A typed reference to an external object: apiVersion (group/version),
kind and name, as used by `corev1.ObjectReference` in the source. -/
structure ObjectReference where
  apiVersion : String
  kind : String
  name : String
  deriving Repr, DecidableEq

/-- Back-reference from a Machine status to a realized node. -/
structure NodeRef where
  name : String
  deriving Repr, DecidableEq

/-- Go error values as the source manipulates them: a bare
`capierrors.RequeueAfterError` with its delay in seconds, an apimachinery
not-found error, the sentinel `util.ErrUnstructuredFieldNotFound`, a plain
error with a message, and the pkg/errors `Wrapf` combination of a message
with a cause. -/
inductive GoError where
  | requeueAfter (seconds : Nat) : GoError
  | notFound (msg : String) : GoError
  | fieldNotFound : GoError
  | simple (msg : String) : GoError
  | wrap (msg : String) (cause : GoError) : GoError
  deriving Repr, DecidableEq

/-- The `Error()` string of a Go error: pkg/errors renders a wrap as
message, colon, space, cause message; `RequeueAfterError.Error` renders the
delay. -/
def GoError.message : GoError → String
  | .requeueAfter s => "requeue in " ++ (toString s ++ "s")
  | .notFound m => m
  | .fieldNotFound => "field not found"
  | .simple m => m
  | .wrap m c => m ++ (": " ++ c.message)

/-- `errors.Cause`: unwrap a chain of wraps down to the root error. -/
def GoError.cause : GoError → GoError
  | .wrap _ c => c.cause
  | e => e

/-- `apierrors.IsNotFound` applied to an unwrapped error. -/
def isNotFoundErr (e : GoError) : Bool :=
  match e with
  | .notFound _ => true
  | _ => false

/-- Whether an error is, after unwrapping, a `RequeueAfterError`: this is
how the machine controller distinguishes a RetryAfter signal from a hard
error. -/
def isRequeueAfter (e : GoError) : Bool :=
  match e.cause with
  | .requeueAfter _ => true
  | _ => false

/-- `Spec.Bootstrap` of a Machine. -/
structure Bootstrap where
  configRef : Option ObjectReference
  dataSecretName : Option String
  data : Option String
  deriving Repr, DecidableEq

/-- `Spec` of a Machine. -/
structure MachineSpec where
  clusterName : String
  bootstrap : Bootstrap
  infrastructureRef : ObjectReference
  providerID : Option String
  failureDomain : Option String
  deriving Repr, DecidableEq

/-- `Status` of a Machine.  The phase is kept as its string form, exactly as
`m.Status.Phase` stores it; timestamps are abstract instants (`Nat`). -/
structure MachineStatus where
  phase : String
  bootstrapReady : Bool
  infrastructureReady : Bool
  nodeRef : Option NodeRef
  failureReason : Option String
  failureMessage : Option String
  lastUpdated : Option Nat
  addresses : List String
  deriving Repr, DecidableEq

/-- The Machine record, with the metadata fields the source consults. -/
structure Machine where
  name : String
  namespaceName : String
  deletionTimestamp : Option Nat
  spec : MachineSpec
  status : MachineStatus
  deriving Repr, DecidableEq

/-- `metav1.Time.IsZero` over our optional instants: a missing or zero
timestamp is zero. -/
def isZeroTime : Option Nat → Bool
  | none => true
  | some t => t == 0

/-- `externalReadyWait`, the requeue delay for not-yet-ready external
objects, in seconds (30 * time.Second in the source). -/
def externalReadyWait : Nat := 30

/-- The phase computed by the six sequential `if` statements of
`reconcilePhase`: the variable `p` plays the role of `m.Status.Phase` as it
is successively overwritten; only the first rule reads the phase itself,
the rest read the other status fields. -/
def derivePhase (m : Machine) : String :=
  let p := m.status.phase
  let p := if p = "" then "Pending" else p
  let p := if m.status.bootstrapReady && !m.status.infrastructureReady then "Provisioning" else p
  let p := if m.status.nodeRef.isSome then "Provisioned" else p
  let p := if m.status.nodeRef.isSome && m.status.infrastructureReady then "Running" else p
  let p := if m.status.failureReason.isSome || m.status.failureMessage.isSome then "Failed" else p
  let p := if !isZeroTime m.deletionTimestamp then "Deleting" else p
  p

/-- `reconcilePhase`: recompute the phase from the status fields and stamp
`LastUpdated` with the current instant when the phase changed. -/
def reconcilePhase (now : Nat) (m : Machine) : Machine :=
  let originalPhase := m.status.phase
  let m1 : Machine := { m with status.phase := derivePhase m }
  if m1.status.phase ≠ originalPhase then
    { m1 with status.lastUpdated := some now }
  else
    m1

/-- The schema-less external object, with the generic metadata the source
touches: labels, a controller owner reference (recorded as the owning
Machine name) and a deletion timestamp. -/
structure UObj where
  apiVersion : String
  kind : String
  name : String
  labels : List (String × String)
  controllerOwner : Option String
  deletionTimestamp : Option Nat
  deriving Repr, DecidableEq

/-- A call made by the embedded functions to a collaborator, recorded in
order in an event trace. -/
inductive Event where
  | convertRef
  | getExternal
  | pausedCheck
  | setControllerRef
  | setLabels
  | patchObj
  | watchObj
  | failuresFrom
  | isReadyCheck
  | readDataSecretName
  | readProviderID
  | readAddresses
  | readFailureDomain
  deriving Repr, DecidableEq

deriving instance DecidableEq for Except

/-- Environment of one `reconcileExternal` call: the responses of the
collaborators it consults, in call order. -/
structure ExtEnv where
  convertErr : Option GoError
  getResult : Except GoError UObj
  isPaused : Bool
  newHelperErr : Option GoError
  setCtrlRefErr : Option GoError
  patchErr : Option GoError
  watchErr : Option GoError
  failuresFrom : Except GoError (String × String)
  deriving Repr, DecidableEq

/-- The two shapes of `external.ReconcileOutput` the source constructs:
`ReconcileOutput{Paused: true}` and `ReconcileOutput{Result: obj}`. -/
inductive ExtOutcome where
  | paused : ExtOutcome
  | done (obj : UObj) : ExtOutcome
  deriving Repr, DecidableEq

/-- Result of the embedded `reconcileExternal`: the (possibly mutated)
Machine, the returned output or error, and the trace of collaborator
calls that were made. -/
structure ExtResult where
  machine : Machine
  output : Except GoError ExtOutcome
  events : List Event
  deriving Repr, DecidableEq

/-- GroupVersionKind display of a reference, as fmt renders it. -/
def gvkString (apiVersion kind : String) : String :=
  apiVersion ++ (", Kind=" ++ kind)

/-- The wrap message of the not-found-to-RetryAfter conversion in
`reconcileExternal`, with the right-associated concatenation of the format
pieces. -/
def notFoundMsg (ref : ObjectReference) (m : Machine) : String :=
  "could not find " ++ (gvkString ref.apiVersion ref.kind ++ (" \"" ++ (ref.name ++
    ("\" for Machine \"" ++ (m.name ++ ("\" in namespace \"" ++
      (m.namespaceName ++ "\", requeuing")))))))

/-- The failure message stamped onto the Machine when the external object
reports a failure. -/
def failureDetectedMsg (obj : UObj) (failureMessage : String) : String :=
  "Failure detected from referenced resource " ++ (gvkString obj.apiVersion obj.kind ++
    (" with name \"" ++ (obj.name ++ ("\": " ++ failureMessage))))

/-- `clusterv1.ClusterLabelName`. -/
def clusterLabelName : String := "cluster.x-k8s.io/cluster-name"

/-- Merge one label into a label map without disturbing the others
(`labels[key] = value` on a Go map rendered as an association list). -/
def setLabel (ls : List (String × String)) (k v : String) : List (String × String) :=
  if ls.any (fun p => p.1 == k) then
    ls.map (fun p => if p.1 == k then (k, v) else p)
  else
    ls ++ [(k, v)]

/-- `reconcileExternal`: version-contract conversion, fetch (converting
not-found into a RetryAfter wrap), pause short-circuit, controller-owner
link, cluster label, patch, watch registration, failure extraction onto the
Machine status. -/
def reconcileExternal (env : ExtEnv) (m : Machine) (ref : ObjectReference) : ExtResult :=
  match env.convertErr with
  | some e => ⟨m, .error e, [.convertRef]⟩
  | none =>
  match env.getResult with
  | .error e =>
    if isNotFoundErr e.cause then
      ⟨m, .error (.wrap (notFoundMsg ref m) (.requeueAfter externalReadyWait)),
        [.convertRef, .getExternal]⟩
    else
      ⟨m, .error e, [.convertRef, .getExternal]⟩
  | .ok obj =>
  if env.isPaused then
    ⟨m, .ok .paused, [.convertRef, .getExternal, .pausedCheck]⟩
  else
  match env.newHelperErr with
  | some e => ⟨m, .error e, [.convertRef, .getExternal, .pausedCheck]⟩
  | none =>
  match env.setCtrlRefErr with
  | some e => ⟨m, .error e, [.convertRef, .getExternal, .pausedCheck, .setControllerRef]⟩
  | none =>
  let obj := { obj with controllerOwner := some m.name }
  let obj := { obj with labels := setLabel obj.labels clusterLabelName m.spec.clusterName }
  match env.patchErr with
  | some e =>
    ⟨m, .error e, [.convertRef, .getExternal, .pausedCheck, .setControllerRef, .setLabels, .patchObj]⟩
  | none =>
  match env.watchErr with
  | some e =>
    ⟨m, .error e,
      [.convertRef, .getExternal, .pausedCheck, .setControllerRef, .setLabels, .patchObj, .watchObj]⟩
  | none =>
  match env.failuresFrom with
  | .error e =>
    ⟨m, .error e,
      [.convertRef, .getExternal, .pausedCheck, .setControllerRef, .setLabels, .patchObj, .watchObj,
        .failuresFrom]⟩
  | .ok (failureReason, failureMessage) =>
    let m := if failureReason ≠ "" then { m with status.failureReason := some failureReason } else m
    let m := if failureMessage ≠ "" then
        { m with status.failureMessage := some (failureDetectedMsg obj failureMessage) }
      else m
    ⟨m, .ok (.done obj),
      [.convertRef, .getExternal, .pausedCheck, .setControllerRef, .setLabels, .patchObj, .watchObj,
        .failuresFrom]⟩

/-- Boolean list-prefix test over characters (the shape of
`strings.HasPrefix`). -/
def isPrefixList : List Char → List Char → Bool
  | [], _ => true
  | _ :: _, [] => false
  | a :: as, b :: bs => a == b && isPrefixList as bs

/-- Substring containment over character lists: the pattern is a prefix of
some suffix. -/
def containsSub (pat : List Char) : List Char → Bool
  | [] => isPrefixList pat []
  | b :: bs => isPrefixList pat (b :: bs) || containsSub pat bs

/-- `strings.Contains`: the pattern occurs somewhere in the string. -/
def strContains (s pat : String) : Bool :=
  containsSub pat.data s.data

/-- Result of one orchestrator pass: the mutated Machine, the returned
error (none for nil) and the trace of collaborator calls. -/
structure OpResult where
  machine : Machine
  err : Option GoError
  events : List Event
  deriving Repr, DecidableEq

/-- Environment of one `reconcileBootstrap` pass: the external-reconcile
environment plus the responses of `external.IsReady` and of the structural
read of `status.dataSecretName` (a `NestedString` read whose found flag is
dropped, so an absent field reads as the empty string). -/
structure BootstrapEnv where
  ext : ExtEnv
  isReady : Except GoError Bool
  dataSecretName : Except GoError String
  deriving Repr, DecidableEq

/-- Environment of one `reconcileInfrastructure` pass: the
external-reconcile environment plus the responses of `external.IsReady` and
of the `UnstructuredUnmarshalField` reads, which report an absent field as
the sentinel `fieldNotFound` error. -/
structure InfraEnv where
  ext : ExtEnv
  isReady : Except GoError Bool
  providerID : Except GoError String
  addresses : Except GoError (List String)
  failureDomain : Except GoError String
  deriving Repr, DecidableEq

/-- Wrap message for a not-ready bootstrap provider. -/
def bootstrapNotReadyMsg (m : Machine) : String :=
  "Bootstrap provider for Machine \"" ++ (m.name ++ ("\" in namespace \"" ++
    (m.namespaceName ++ "\" is not ready, requeuing")))

/-- Wrap message for a failed `status.dataSecretName` read. -/
def dataSecretReadFailMsg (m : Machine) : String :=
  "failed to retrieve dataSecretName from bootstrap provider for Machine \"" ++
    (m.name ++ ("\" in namespace \"" ++ (m.namespaceName ++ "\"")))

/-- Hard-error message for an empty `status.dataSecretName` on a ready
bootstrap provider. -/
def emptyDataSecretMsg (m : Machine) : String :=
  "retrieved empty dataSecretName from bootstrap provider for Machine \"" ++
    (m.name ++ ("\" in namespace \"" ++ (m.namespaceName ++ "\"")))

/-- `reconcileBootstrap`: no-op without a config reference; delegate to
`reconcileExternal`; short-circuit on pause; mark ready immediately when
`DataSecretName` is already populated; return early on a deleting object;
otherwise gate on provider readiness and copy the data secret name. -/
def reconcileBootstrap (env : BootstrapEnv) (m : Machine) : OpResult :=
  match m.spec.bootstrap.configRef with
  | none => ⟨m, none, []⟩
  | some ref =>
  let r := reconcileExternal env.ext m ref
  match r.output with
  | .error e => ⟨r.machine, some e, r.events⟩
  | .ok .paused => ⟨r.machine, none, r.events⟩
  | .ok (.done bootstrapConfig) =>
  if r.machine.spec.bootstrap.dataSecretName.isSome then
    ⟨{ r.machine with status.bootstrapReady := true }, none, r.events⟩
  else
  if !isZeroTime bootstrapConfig.deletionTimestamp then
    ⟨r.machine, none, r.events⟩
  else
  match env.isReady with
  | .error e => ⟨r.machine, some e, r.events ++ [.isReadyCheck]⟩
  | .ok ready =>
  if !ready then
    ⟨r.machine, some (.wrap (bootstrapNotReadyMsg m) (.requeueAfter externalReadyWait)),
      r.events ++ [.isReadyCheck]⟩
  else
  match env.dataSecretName with
  | .error e =>
    ⟨r.machine, some (.wrap (dataSecretReadFailMsg m) e),
      r.events ++ [.isReadyCheck, .readDataSecretName]⟩
  | .ok secretName =>
  if secretName = "" then
    ⟨r.machine, some (.simple (emptyDataSecretMsg m)),
      r.events ++ [.isReadyCheck, .readDataSecretName]⟩
  else
    ⟨{ r.machine with
        spec.bootstrap.data := none,
        spec.bootstrap.dataSecretName := some secretName,
        status.bootstrapReady := true },
      none, r.events ++ [.isReadyCheck, .readDataSecretName]⟩

/-- `capierrors.InvalidConfigurationMachineError`. -/
def invalidConfigurationMachineError : String := "InvalidConfiguration"

/-- Failure message stamped when a previously-ready infrastructure
reference resolves to not-found. -/
def infraDeletedMsg (m : Machine) : String :=
  "Machine infrastructure resource " ++
    (gvkString m.spec.infrastructureRef.apiVersion m.spec.infrastructureRef.kind ++
      (" with name \"" ++ (m.spec.infrastructureRef.name ++
        "\" has been deleted after being ready")))

/-- Wrap message for a not-ready infrastructure provider. -/
def infraNotReadyMsg (m : Machine) : String :=
  "Infrastructure provider for Machine \"" ++ (m.name ++ ("\" in namespace \"" ++
    (m.namespaceName ++ "\" is not ready, requeuing")))

/-- Wrap message for a failed `spec.providerID` read. -/
def providerIDReadFailMsg (m : Machine) : String :=
  "failed to retrieve Spec.ProviderID from infrastructure provider for Machine \"" ++
    (m.name ++ ("\" in namespace \"" ++ (m.namespaceName ++ "\"")))

/-- Hard-error message for an empty `spec.providerID` on a ready
infrastructure provider. -/
def emptyProviderIDMsg (m : Machine) : String :=
  "retrieved empty Spec.ProviderID from infrastructure provider for Machine \"" ++
    (m.name ++ ("\" in namespace \"" ++ (m.namespaceName ++ "\"")))

/-- Wrap message for a failed `status.addresses` read. -/
def addressesReadFailMsg (m : Machine) : String :=
  "failed to retrieve addresses from infrastructure provider for Machine \"" ++
    (m.name ++ ("\" in namespace \"" ++ (m.namespaceName ++ "\"")))

/-- Wrap message for a failed `spec.failureDomain` read. -/
def failureDomainReadFailMsg (m : Machine) : String :=
  "failed to failure domain from infrastructure provider for Machine \"" ++
    (m.name ++ ("\" in namespace \"" ++ (m.namespaceName ++ "\"")))

/-- `reconcileInfrastructure`: delegate to `reconcileExternal`; on error,
escalate to a terminal failure when the infrastructure was previously ready
and the error message contains the not-found marker, then propagate the
error; short-circuit on pause or a deleting object; write the readiness
value and requeue when not ready; read provider id (hard error when empty),
addresses and failure domain; finally persist the provider id. -/
def reconcileInfrastructure (env : InfraEnv) (m : Machine) : OpResult :=
  let r := reconcileExternal env.ext m m.spec.infrastructureRef
  match r.output with
  | .error e =>
    if r.machine.status.infrastructureReady && strContains e.message "could not find" then
      ⟨{ r.machine with
          status.failureReason := some invalidConfigurationMachineError,
          status.failureMessage := some (infraDeletedMsg m) },
        some e, r.events⟩
    else
      ⟨r.machine, some e, r.events⟩
  | .ok .paused => ⟨r.machine, none, r.events⟩
  | .ok (.done infraConfig) =>
  if !isZeroTime infraConfig.deletionTimestamp then
    ⟨r.machine, none, r.events⟩
  else
  match env.isReady with
  | .error e => ⟨r.machine, some e, r.events ++ [.isReadyCheck]⟩
  | .ok ready =>
  let m1 : Machine := { r.machine with status.infrastructureReady := ready }
  if !ready then
    ⟨m1, some (.wrap (infraNotReadyMsg m) (.requeueAfter externalReadyWait)),
      r.events ++ [.isReadyCheck]⟩
  else
  match env.providerID with
  | .error e =>
    ⟨m1, some (.wrap (providerIDReadFailMsg m) e), r.events ++ [.isReadyCheck, .readProviderID]⟩
  | .ok providerID =>
  if providerID = "" then
    ⟨m1, some (.simple (emptyProviderIDMsg m)), r.events ++ [.isReadyCheck, .readProviderID]⟩
  else
  let addrStep : Except GoError Machine :=
    match env.addresses with
    | .error e =>
      if e = .fieldNotFound then .ok m1 else .error (.wrap (addressesReadFailMsg m) e)
    | .ok addrs => .ok { m1 with status.addresses := addrs }
  match addrStep with
  | .error e =>
    ⟨m1, some e, r.events ++ [.isReadyCheck, .readProviderID, .readAddresses]⟩
  | .ok m2 =>
  let fdStep : Except GoError Machine :=
    match env.failureDomain with
    | .error e =>
      if e = .fieldNotFound then .ok m2 else .error (.wrap (failureDomainReadFailMsg m) e)
    | .ok fd => .ok { m2 with spec.failureDomain := some fd }
  match fdStep with
  | .error e =>
    ⟨m2, some e, r.events ++ [.isReadyCheck, .readProviderID, .readAddresses, .readFailureDomain]⟩
  | .ok m3 =>
    ⟨{ m3 with spec.providerID := some providerID }, none,
      r.events ++ [.isReadyCheck, .readProviderID, .readAddresses, .readFailureDomain]⟩

/-- The external object as `reconcileExternal` leaves it on the success
path: controller-owner link to the Machine and the cluster label merged in
(lines setting the controller reference and the labels in the source). -/
def labeledObj (m : Machine) (obj : UObj) : UObj :=
  { obj with
      controllerOwner := some m.name,
      labels := setLabel obj.labels clusterLabelName m.spec.clusterName }

/-- The Machine as `reconcileExternal` leaves it on the success path: the
two independent conditional failure-field stamps. -/
def applyFailures (m : Machine) (obj : UObj) (failureReason failureMessage : String) : Machine :=
  let m := if failureReason ≠ "" then { m with status.failureReason := some failureReason } else m
  if failureMessage ≠ "" then
    { m with status.failureMessage := some (failureDetectedMsg obj failureMessage) }
  else m

/-- The full trace of a successful `reconcileExternal` pass. -/
def extSuccessEvents : List Event :=
  [.convertRef, .getExternal, .pausedCheck, .setControllerRef, .setLabels, .patchObj, .watchObj,
    .failuresFrom]

/-! ## Concrete fixtures used by witnesses and counterexamples -/

/-- A concrete external reference. -/
def refA : ObjectReference := ⟨"infrastructure.cluster.x-k8s.io/v1alpha3", "AWSMachine", "m0-infra"⟩

/-- A concrete bootstrap reference. -/
def refB : ObjectReference := ⟨"bootstrap.cluster.x-k8s.io/v1alpha3", "KubeadmConfig", "m0-boot"⟩

/-- A concrete fresh Machine. -/
def machineA : Machine :=
  { name := "m0", namespaceName := "default", deletionTimestamp := none,
    spec := { clusterName := "c1",
              bootstrap := ⟨some refB, none, none⟩,
              infrastructureRef := refA, providerID := none, failureDomain := none },
    status := { phase := "", bootstrapReady := false, infrastructureReady := false,
                nodeRef := none, failureReason := none, failureMessage := none,
                lastUpdated := none, addresses := [] } }

/-- A concrete Machine that is running: node reference present and
infrastructure ready. -/
def machineRunning : Machine :=
  { machineA with status := { machineA.status with
      phase := "Pending", bootstrapReady := true, infrastructureReady := true,
      nodeRef := some ⟨"node-1"⟩ } }

/-- A concrete Machine that is simultaneously failed and deleting. -/
def machineFailedDeleting : Machine :=
  { machineA with
      deletionTimestamp := some 5,
      status := { machineA.status with
        phase := "Running", failureReason := some "InvalidConfiguration",
        failureMessage := some "boom" } }

/-- A concrete Machine whose infrastructure was previously marked ready. -/
def machineInfraReady : Machine :=
  { machineA with status := { machineA.status with infrastructureReady := true } }

/-- A concrete Machine that already carries a bootstrap data secret name. -/
def machineWithSecret : Machine :=
  { machineA with spec := { machineA.spec with
      bootstrap := { machineA.spec.bootstrap with dataSecretName := some "preset-secret" } } }

/-- A concrete external object with no deletion timestamp. -/
def objA : UObj :=
  ⟨"infrastructure.cluster.x-k8s.io/v1alpha3", "AWSMachine", "m0-infra", [], none, none⟩

/-- An external-reconcile environment in which every collaborator succeeds
and the object reports no failure. -/
def extEnvOK : ExtEnv :=
  { convertErr := none, getResult := .ok objA, isPaused := false,
    newHelperErr := none, setCtrlRefErr := none, patchErr := none,
    watchErr := none, failuresFrom := .ok ("", "") }

/-- A concrete not-found error as the store reports it. -/
def errNotFoundA : GoError :=
  .notFound "awsmachines.infrastructure.cluster.x-k8s.io \"m0-infra\" not found"

/-- An external-reconcile environment whose fetch reports not-found. -/
def extEnvNotFound : ExtEnv := { extEnvOK with getResult := .error errNotFoundA }

/-- An external-reconcile environment whose object is paused. -/
def extEnvPaused : ExtEnv := { extEnvOK with isPaused := true }

/-- A fully successful infrastructure environment. -/
def infraEnvOK : InfraEnv :=
  { ext := extEnvOK, isReady := .ok true, providerID := .ok "aws:///i-0abc",
    addresses := .ok [], failureDomain := .ok "us-east-1a" }

/-- An infrastructure environment whose fetch reports not-found. -/
def infraEnvNotFound : InfraEnv := { infraEnvOK with ext := extEnvNotFound }

/-- An infrastructure environment whose provider reports not ready. -/
def infraEnvNotReady : InfraEnv := { infraEnvOK with isReady := .ok false }

/-- An infrastructure environment whose ready provider carries an empty
`spec.providerID`. -/
def infraEnvEmptyPID : InfraEnv := { infraEnvOK with providerID := .ok "" }

/-- An infrastructure environment whose object is paused. -/
def infraEnvPaused : InfraEnv := { infraEnvOK with ext := extEnvPaused }

/-- A fully successful bootstrap environment. -/
def bootstrapEnvOK : BootstrapEnv :=
  { ext := extEnvOK, isReady := .ok true, dataSecretName := .ok "m0-data" }

/-- A bootstrap environment whose object is paused. -/
def bootstrapEnvPaused : BootstrapEnv := { bootstrapEnvOK with ext := extEnvPaused }

/-- A bootstrap environment whose readiness check and secret read would
both fail: used to show the shortcut never consults them. -/
def bootstrapEnvHostile : BootstrapEnv :=
  { ext := extEnvOK, isReady := .error (.simple "isReady exploded"),
    dataSecretName := .error (.simple "read exploded") }

/-! ## Helper lemmas about `reconcilePhase` -/

theorem reconcilePhase_phase (now : Nat) (m : Machine) :
    (reconcilePhase now m).status.phase = derivePhase m := by
  simp only [reconcilePhase]
  split <;> rfl

theorem reconcilePhase_bootstrapReady (now : Nat) (m : Machine) :
    (reconcilePhase now m).status.bootstrapReady = m.status.bootstrapReady := by
  simp only [reconcilePhase]
  split <;> rfl

theorem reconcilePhase_infrastructureReady (now : Nat) (m : Machine) :
    (reconcilePhase now m).status.infrastructureReady = m.status.infrastructureReady := by
  simp only [reconcilePhase]
  split <;> rfl

theorem reconcilePhase_nodeRef (now : Nat) (m : Machine) :
    (reconcilePhase now m).status.nodeRef = m.status.nodeRef := by
  simp only [reconcilePhase]
  split <;> rfl

theorem reconcilePhase_failureReason (now : Nat) (m : Machine) :
    (reconcilePhase now m).status.failureReason = m.status.failureReason := by
  simp only [reconcilePhase]
  split <;> rfl

theorem reconcilePhase_failureMessage (now : Nat) (m : Machine) :
    (reconcilePhase now m).status.failureMessage = m.status.failureMessage := by
  simp only [reconcilePhase]
  split <;> rfl

theorem reconcilePhase_deletionTimestamp (now : Nat) (m : Machine) :
    (reconcilePhase now m).deletionTimestamp = m.deletionTimestamp := by
  simp only [reconcilePhase]
  split <;> rfl

/-- The derived phase is never the empty string when fed its own output:
applying the six rules to a status whose phase is the previous derivation
reproduces that derivation. -/
theorem derivePhase_stable (m : Machine) (now : Nat) :
    derivePhase (reconcilePhase now m) = derivePhase m := by
  have hb := reconcilePhase_bootstrapReady now m
  have hi := reconcilePhase_infrastructureReady now m
  have hn := reconcilePhase_nodeRef now m
  have hr := reconcilePhase_failureReason now m
  have hm := reconcilePhase_failureMessage now m
  have hd := reconcilePhase_deletionTimestamp now m
  have hp := reconcilePhase_phase now m
  unfold derivePhase
  rw [hb, hi, hn, hr, hm, hd, hp]
  by_cases h6 : isZeroTime m.deletionTimestamp = true <;>
    by_cases h5 : (m.status.failureReason.isSome || m.status.failureMessage.isSome) = true <;>
      by_cases h4 : (m.status.nodeRef.isSome && m.status.infrastructureReady) = true <;>
        by_cases h3 : m.status.nodeRef.isSome = true <;>
          by_cases h2 : (m.status.bootstrapReady && !m.status.infrastructureReady) = true <;>
            by_cases h1 : m.status.phase = "" <;>
              simp_all [derivePhase]

/-! ## C3, C4, C5: the phase deriver -/

/-- C3: `reconcilePhase` is deterministic (it is a function of the status
and the instant) and idempotent on the phase field: after one application,
a second application at any instant leaves the phase unchanged. -/
theorem reconcilePhase_idempotent (m : Machine) (now now2 : Nat) :
    (reconcilePhase now2 (reconcilePhase now m)).status.phase
      = (reconcilePhase now m).status.phase := by
  rw [reconcilePhase_phase, derivePhase_stable, reconcilePhase_phase]

/-- C4: the `LastUpdated` timestamp is refreshed to the current instant
exactly when the derived phase differs from the phase on entry, and is left
untouched otherwise. -/
theorem reconcilePhase_lastUpdated_iff_changed (m : Machine) (now : Nat) :
    (reconcilePhase now m).status.lastUpdated
      = if (reconcilePhase now m).status.phase ≠ m.status.phase then some now
        else m.status.lastUpdated := by
  rw [reconcilePhase_phase]
  simp only [reconcilePhase]
  split <;> simp_all

/-- C5: with a node reference present and infrastructure ready (and the
later failed/deleting rules not triggered), the phase is Running whatever
the entry phase and `BootstrapReady` are — the Running rule overrides the
earlier Pending/Provisioning/Provisioned rules; and a Machine meeting both
the Failed and the Deleting conditions presents as Deleting, because the
Deleting rule is evaluated last. -/
theorem reconcilePhase_last_rule_wins :
    (∀ (m : Machine) (now : Nat),
        m.status.nodeRef.isSome = true →
        m.status.infrastructureReady = true →
        m.status.failureReason = none →
        m.status.failureMessage = none →
        isZeroTime m.deletionTimestamp = true →
        (reconcilePhase now m).status.phase = "Running") ∧
    (∀ (m : Machine) (now : Nat),
        (m.status.failureReason.isSome || m.status.failureMessage.isSome) = true →
        isZeroTime m.deletionTimestamp = false →
        (reconcilePhase now m).status.phase = "Deleting") := by
  constructor
  · intro m now h1 h2 h3 h4 h5
    rw [reconcilePhase_phase]
    simp [derivePhase, h1, h2, h3, h4, h5]
  · intro m now h1 h2
    rw [reconcilePhase_phase]
    simp [derivePhase, h1, h2]

/-- Witness for C5 at concrete Machines: a running Machine derives phase
Running and a failed-and-deleting Machine derives phase Deleting. -/
theorem reconcilePhase_last_rule_wins_witness :
    (reconcilePhase 9 machineRunning).status.phase = "Running" ∧
    (reconcilePhase 9 machineFailedDeleting).status.phase = "Deleting" :=
  ⟨reconcilePhase_last_rule_wins.1 machineRunning 9 rfl rfl rfl rfl rfl,
   reconcilePhase_last_rule_wins.2 machineFailedDeleting 9 rfl rfl⟩

/-! ## Substring facts -/

theorem isPrefixList_append (pat rest : List Char) : isPrefixList pat (pat ++ rest) = true := by
  induction pat with
  | nil => rfl
  | cons a as ih => simp [isPrefixList, ih]

theorem containsSub_prefix (pat rest : List Char) : containsSub pat (pat ++ rest) = true := by
  cases h : pat ++ rest with
  | nil => simp_all [containsSub, List.append_eq_nil, isPrefixList]
  | cons b bs => rw [containsSub, ← h, isPrefixList_append]; rfl

/-- A string contains each of its prefixes. -/
theorem strContains_of_prefix (pre x : String) : strContains (pre ++ x) pre = true := by
  unfold strContains
  rw [String.data_append]
  exact containsSub_prefix pre.data x.data

/-- The message of the wrapped not-found error produced by
`reconcileExternal` contains the marker `reconcileInfrastructure` greps
for. -/
theorem notFound_wrap_contains_marker (ref : ObjectReference) (m : Machine) (e : GoError) :
    strContains (GoError.message (.wrap (notFoundMsg ref m) e)) "could not find" = true := by
  have h1 : GoError.message (.wrap (notFoundMsg ref m) e)
      = "could not find" ++ (" " ++ ((gvkString ref.apiVersion ref.kind ++ (" \"" ++ (ref.name ++
          ("\" for Machine \"" ++ (m.name ++ ("\" in namespace \"" ++
            (m.namespaceName ++ "\", requeuing"))))))) ++ (": " ++ e.message))) := by
    show notFoundMsg ref m ++ (": " ++ e.message) = _
    unfold notFoundMsg
    rw [show ("could not find " : String) = "could not find" ++ " " from rfl]
    rw [String.append_assoc, String.append_assoc]
  rw [h1]
  exact strContains_of_prefix "could not find" _

/-! ## Path lemmas about `reconcileExternal` -/

/-- Gateway not-found: `reconcileExternal` converts the error into a wrap
of a `RequeueAfterError` with the `externalReadyWait` delay, leaving the
Machine untouched and without reaching the mutation steps. -/
theorem reconcileExternal_notFound_eq (env : ExtEnv) (m : Machine) (ref : ObjectReference)
    (e : GoError) (hc : env.convertErr = none) (hg : env.getResult = .error e)
    (hnf : isNotFoundErr e.cause = true) :
    reconcileExternal env m ref
      = ⟨m, .error (.wrap (notFoundMsg ref m) (.requeueAfter externalReadyWait)),
          [.convertRef, .getExternal]⟩ := by
  simp [reconcileExternal, hc, hg, hnf]

/-- Paused object: `reconcileExternal` returns immediately with the paused
outcome, the Machine untouched, and only the fetch-side calls made. -/
theorem reconcileExternal_paused_eq (env : ExtEnv) (m : Machine) (ref : ObjectReference)
    (obj : UObj) (hc : env.convertErr = none) (hg : env.getResult = .ok obj)
    (hp : env.isPaused = true) :
    reconcileExternal env m ref
      = ⟨m, .ok .paused, [.convertRef, .getExternal, .pausedCheck]⟩ := by
  simp [reconcileExternal, hc, hg, hp]

/-- Full success: `reconcileExternal` returns the adopted and labeled
object, the Machine with the failure stamps applied, and the full trace. -/
theorem reconcileExternal_success_eq (env : ExtEnv) (m : Machine) (ref : ObjectReference)
    (obj : UObj) (failureReason failureMessage : String)
    (hc : env.convertErr = none) (hg : env.getResult = .ok obj) (hp : env.isPaused = false)
    (hh : env.newHelperErr = none) (hs : env.setCtrlRefErr = none) (hpa : env.patchErr = none)
    (hw : env.watchErr = none) (hf : env.failuresFrom = .ok (failureReason, failureMessage)) :
    reconcileExternal env m ref
      = ⟨applyFailures m (labeledObj m obj) failureReason failureMessage,
          .ok (.done (labeledObj m obj)), extSuccessEvents⟩ := by
  simp [reconcileExternal, hc, hg, hp, hh, hs, hpa, hw, hf, applyFailures, labeledObj,
    extSuccessEvents]

/-- `applyFailures` only touches the failure fields of the status. -/
theorem applyFailures_spec (m : Machine) (obj : UObj) (fr fm : String) :
    (applyFailures m obj fr fm).spec = m.spec := by
  unfold applyFailures
  split <;> split <;> rfl

theorem applyFailures_name (m : Machine) (obj : UObj) (fr fm : String) :
    (applyFailures m obj fr fm).name = m.name := by
  unfold applyFailures
  split <;> split <;> rfl

theorem applyFailures_infrastructureReady (m : Machine) (obj : UObj) (fr fm : String) :
    (applyFailures m obj fr fm).status.infrastructureReady = m.status.infrastructureReady := by
  unfold applyFailures
  split <;> split <;> rfl

theorem applyFailures_bootstrapReady (m : Machine) (obj : UObj) (fr fm : String) :
    (applyFailures m obj fr fm).status.bootstrapReady = m.status.bootstrapReady := by
  unfold applyFailures
  split <;> split <;> rfl

/-! ## C2: not-found is always converted to a RetryAfter -/

/-- C2: when the Gateway reports not-found for the reference (after a
successful version-contract conversion), `reconcileExternal` returns a
wrap of a `RequeueAfterError` — a RetryAfter signal, never a plain hard
error — whose delay is exactly 30 seconds and whose message spells out the
referenced group/version/kind, its name and the namespace. -/
theorem reconcileExternal_notFound_retryAfter (env : ExtEnv) (m : Machine)
    (ref : ObjectReference) (e : GoError) (hc : env.convertErr = none)
    (hg : env.getResult = .error e) (hnf : isNotFoundErr e.cause = true) :
    (reconcileExternal env m ref).output
        = .error (.wrap (notFoundMsg ref m) (.requeueAfter externalReadyWait)) ∧
    externalReadyWait = 30 ∧
    isRequeueAfter (.wrap (notFoundMsg ref m) (.requeueAfter externalReadyWait)) = true := by
  refine ⟨?_, rfl, rfl⟩
  rw [reconcileExternal_notFound_eq env m ref e hc hg hnf]

/-- Witness for C2 at a concrete not-found environment. -/
theorem reconcileExternal_notFound_retryAfter_witness :
    extEnvNotFound.convertErr = none ∧
    extEnvNotFound.getResult = .error errNotFoundA ∧
    isNotFoundErr errNotFoundA.cause = true ∧
    ((reconcileExternal extEnvNotFound machineA refA).output
        = .error (.wrap (notFoundMsg refA machineA) (.requeueAfter externalReadyWait)) ∧
      externalReadyWait = 30 ∧
      isRequeueAfter (.wrap (notFoundMsg refA machineA) (.requeueAfter externalReadyWait)) = true) :=
  ⟨rfl, rfl, rfl,
    reconcileExternal_notFound_retryAfter extEnvNotFound machineA refA errNotFoundA rfl rfl rfl⟩

/-! ## C1: previously-ready infrastructure that vanished -/

/-- Counterexample to C1 as stated: at a concrete Machine whose
`InfrastructureReady` is true and whose infrastructure fetch reports
not-found, `reconcileInfrastructure` does set both failure fields, but the
error it propagates is the wrap produced by `reconcileExternal` around a
`RequeueAfterError` — so the returned error IS a RetryAfter
(RequeueAfterError) signal, contradicting the claim that it is not. -/
theorem reconcileInfrastructure_notFound_counterexample :
    (reconcileInfrastructure infraEnvNotFound machineInfraReady).machine.status.failureReason.isSome
        = true ∧
    (reconcileInfrastructure infraEnvNotFound machineInfraReady).machine.status.failureMessage.isSome
        = true ∧
    (reconcileInfrastructure infraEnvNotFound machineInfraReady).err
        = some (.wrap (notFoundMsg refA machineInfraReady) (.requeueAfter 30)) ∧
    isRequeueAfter (.wrap (notFoundMsg refA machineInfraReady) (.requeueAfter 30)) = true := by
  refine ⟨?_, ?_, ?_, rfl⟩ <;> decide

/-- C1 as amended: if `Status.InfrastructureReady` is true and the
infrastructure fetch reports not-found, `reconcileInfrastructure` sets both
`Status.FailureReason` and `Status.FailureMessage` and returns the
propagated error — which is the RetryAfter (RequeueAfterError) wrap that
`reconcileExternal` made out of the not-found condition, not a plain hard
error. -/
theorem reconcileInfrastructure_notFound_terminal (env : InfraEnv) (m : Machine) (e : GoError)
    (hready : m.status.infrastructureReady = true) (hc : env.ext.convertErr = none)
    (hg : env.ext.getResult = .error e) (hnf : isNotFoundErr e.cause = true) :
    (reconcileInfrastructure env m).machine.status.failureReason
        = some invalidConfigurationMachineError ∧
    (reconcileInfrastructure env m).machine.status.failureMessage = some (infraDeletedMsg m) ∧
    (reconcileInfrastructure env m).err
        = some (.wrap (notFoundMsg m.spec.infrastructureRef m) (.requeueAfter externalReadyWait)) ∧
    isRequeueAfter (.wrap (notFoundMsg m.spec.infrastructureRef m) (.requeueAfter externalReadyWait))
        = true := by
  have hext := reconcileExternal_notFound_eq env.ext m m.spec.infrastructureRef e hc hg hnf
  refine ⟨?_, ?_, ?_, rfl⟩ <;>
    simp [reconcileInfrastructure, hext, hready, notFound_wrap_contains_marker]

/-- Witness for the amended C1 at a concrete input. -/
theorem reconcileInfrastructure_notFound_terminal_witness :
    machineInfraReady.status.infrastructureReady = true ∧
    infraEnvNotFound.ext.convertErr = none ∧
    infraEnvNotFound.ext.getResult = .error errNotFoundA ∧
    isNotFoundErr errNotFoundA.cause = true ∧
    ((reconcileInfrastructure infraEnvNotFound machineInfraReady).machine.status.failureReason
        = some invalidConfigurationMachineError ∧
      (reconcileInfrastructure infraEnvNotFound machineInfraReady).machine.status.failureMessage
        = some (infraDeletedMsg machineInfraReady) ∧
      (reconcileInfrastructure infraEnvNotFound machineInfraReady).err
        = some (.wrap (notFoundMsg machineInfraReady.spec.infrastructureRef machineInfraReady)
            (.requeueAfter externalReadyWait)) ∧
      isRequeueAfter (.wrap (notFoundMsg machineInfraReady.spec.infrastructureRef machineInfraReady)
          (.requeueAfter externalReadyWait)) = true) :=
  ⟨rfl, rfl, rfl, rfl,
    reconcileInfrastructure_notFound_terminal infraEnvNotFound machineInfraReady errNotFoundA
      rfl rfl rfl rfl⟩

theorem labeledObj_deletionTimestamp (m : Machine) (obj : UObj) :
    (labeledObj m obj).deletionTimestamp = obj.deletionTimestamp := rfl

/-! ## C6: bootstrap data-secret shortcut -/

/-- C6: when `Spec.Bootstrap.DataSecretName` is already populated and the
external reconcile succeeds without pausing, `reconcileBootstrap` marks
`BootstrapReady` and returns nil, and its trace shows that neither the
provider readiness check nor the `status.dataSecretName` read was ever
made. -/
theorem reconcileBootstrap_secret_shortcut (env : BootstrapEnv) (m : Machine)
    (ref : ObjectReference) (obj : UObj) (failureReason failureMessage : String)
    (href : m.spec.bootstrap.configRef = some ref)
    (hsec : m.spec.bootstrap.dataSecretName.isSome = true)
    (hc : env.ext.convertErr = none) (hg : env.ext.getResult = .ok obj)
    (hp : env.ext.isPaused = false) (hh : env.ext.newHelperErr = none)
    (hs : env.ext.setCtrlRefErr = none) (hpa : env.ext.patchErr = none)
    (hw : env.ext.watchErr = none)
    (hf : env.ext.failuresFrom = .ok (failureReason, failureMessage)) :
    (reconcileBootstrap env m).machine.status.bootstrapReady = true ∧
    (reconcileBootstrap env m).err = none ∧
    (reconcileBootstrap env m).events.contains .isReadyCheck = false ∧
    (reconcileBootstrap env m).events.contains .readDataSecretName = false := by
  have hext := reconcileExternal_success_eq env.ext m ref obj failureReason failureMessage
    hc hg hp hh hs hpa hw hf
  have hspec := applyFailures_spec m (labeledObj m obj) failureReason failureMessage
  refine ⟨?_, ?_, ?_, ?_⟩ <;>
    simp [reconcileBootstrap, href, hext, hspec, hsec, extSuccessEvents]

/-- Witness for C6: a hostile environment whose readiness check and secret
read would both fail still succeeds, because neither is consulted. -/
theorem reconcileBootstrap_secret_shortcut_witness :
    machineWithSecret.spec.bootstrap.configRef = some refB ∧
    machineWithSecret.spec.bootstrap.dataSecretName.isSome = true ∧
    ((reconcileBootstrap bootstrapEnvHostile machineWithSecret).machine.status.bootstrapReady
        = true ∧
      (reconcileBootstrap bootstrapEnvHostile machineWithSecret).err = none ∧
      (reconcileBootstrap bootstrapEnvHostile machineWithSecret).events.contains .isReadyCheck
        = false ∧
      (reconcileBootstrap bootstrapEnvHostile machineWithSecret).events.contains .readDataSecretName
        = false) :=
  ⟨rfl, rfl,
    reconcileBootstrap_secret_shortcut bootstrapEnvHostile machineWithSecret refB objA "" ""
      rfl rfl rfl rfl rfl rfl rfl rfl rfl rfl⟩

/-! ## C7: ready infrastructure with empty providerID -/

/-- C7: a ready, non-paused, non-deleting infrastructure object whose
`spec.providerID` reads back empty makes `reconcileInfrastructure` return
the hard "retrieved empty Spec.ProviderID" error — not a RetryAfter — and
leaves `Spec.ProviderID` exactly as it was on entry. -/
theorem reconcileInfrastructure_emptyProviderID (env : InfraEnv) (m : Machine) (obj : UObj)
    (failureReason failureMessage : String)
    (hc : env.ext.convertErr = none) (hg : env.ext.getResult = .ok obj)
    (hp : env.ext.isPaused = false) (hh : env.ext.newHelperErr = none)
    (hs : env.ext.setCtrlRefErr = none) (hpa : env.ext.patchErr = none)
    (hw : env.ext.watchErr = none)
    (hf : env.ext.failuresFrom = .ok (failureReason, failureMessage))
    (hdel : isZeroTime obj.deletionTimestamp = true)
    (hr : env.isReady = .ok true) (hpid : env.providerID = .ok "") :
    (reconcileInfrastructure env m).err = some (.simple (emptyProviderIDMsg m)) ∧
    isRequeueAfter (.simple (emptyProviderIDMsg m)) = false ∧
    (reconcileInfrastructure env m).machine.spec.providerID = m.spec.providerID := by
  have hext := reconcileExternal_success_eq env.ext m m.spec.infrastructureRef obj
    failureReason failureMessage hc hg hp hh hs hpa hw hf
  have hspec := applyFailures_spec m (labeledObj m obj) failureReason failureMessage
  refine ⟨?_, rfl, ?_⟩ <;>
    simp [reconcileInfrastructure, hext, labeledObj_deletionTimestamp, hdel, hr, hpid, hspec]

/-- Witness for C7 at a concrete input. -/
theorem reconcileInfrastructure_emptyProviderID_witness :
    isZeroTime objA.deletionTimestamp = true ∧
    infraEnvEmptyPID.isReady = .ok true ∧
    infraEnvEmptyPID.providerID = .ok "" ∧
    ((reconcileInfrastructure infraEnvEmptyPID machineA).err
        = some (.simple (emptyProviderIDMsg machineA)) ∧
      isRequeueAfter (.simple (emptyProviderIDMsg machineA)) = false ∧
      (reconcileInfrastructure infraEnvEmptyPID machineA).machine.spec.providerID
        = machineA.spec.providerID) :=
  ⟨rfl, rfl, rfl,
    reconcileInfrastructure_emptyProviderID infraEnvEmptyPID machineA objA "" ""
      rfl rfl rfl rfl rfl rfl rfl rfl rfl rfl rfl⟩

/-! ## C8: the pause short-circuit -/

/-- C8: a paused external object makes `reconcileExternal` return the
paused outcome with a nil error, the Machine exactly as it was, and a trace
ending at the pause check — so no owner reference, label, patch or watch
call touched the external object; and both orchestrators, seeing the
paused outcome, return nil with the Machine still untouched. -/
theorem paused_short_circuit (benv : BootstrapEnv) (ienv : InfraEnv) (m : Machine)
    (ref : ObjectReference) (objB objI : UObj)
    (hbc : benv.ext.convertErr = none) (hbg : benv.ext.getResult = .ok objB)
    (hbp : benv.ext.isPaused = true)
    (hic : ienv.ext.convertErr = none) (hig : ienv.ext.getResult = .ok objI)
    (hip : ienv.ext.isPaused = true)
    (href : m.spec.bootstrap.configRef = some ref) :
    reconcileExternal benv.ext m ref
        = ⟨m, .ok .paused, [.convertRef, .getExternal, .pausedCheck]⟩ ∧
    reconcileBootstrap benv m = ⟨m, none, [.convertRef, .getExternal, .pausedCheck]⟩ ∧
    reconcileInfrastructure ienv m = ⟨m, none, [.convertRef, .getExternal, .pausedCheck]⟩ := by
  have h1 := reconcileExternal_paused_eq benv.ext m ref objB hbc hbg hbp
  have h2 := reconcileExternal_paused_eq ienv.ext m m.spec.infrastructureRef objI hic hig hip
  refine ⟨h1, ?_, ?_⟩
  · simp [reconcileBootstrap, href, h1]
  · simp [reconcileInfrastructure, h2]

/-- Witness for C8 at a concrete paused environment. -/
theorem paused_short_circuit_witness :
    bootstrapEnvPaused.ext.isPaused = true ∧
    infraEnvPaused.ext.isPaused = true ∧
    machineA.spec.bootstrap.configRef = some refB ∧
    (reconcileExternal bootstrapEnvPaused.ext machineA refB
        = ⟨machineA, .ok .paused, [.convertRef, .getExternal, .pausedCheck]⟩ ∧
      reconcileBootstrap bootstrapEnvPaused machineA
        = ⟨machineA, none, [.convertRef, .getExternal, .pausedCheck]⟩ ∧
      reconcileInfrastructure infraEnvPaused machineA
        = ⟨machineA, none, [.convertRef, .getExternal, .pausedCheck]⟩) :=
  ⟨rfl, rfl, rfl,
    paused_short_circuit bootstrapEnvPaused infraEnvPaused machineA refB objA objA
      rfl rfl rfl rfl rfl rfl rfl⟩

/-! ## C10: readiness is written before it is checked -/

/-- C10: on the success path with a non-paused, non-deleting object,
`reconcileInfrastructure` writes whatever readiness the provider reports
straight into `Status.InfrastructureReady` — downgrading a previously true
flag when the provider says not ready — and only then returns the
RetryAfter error for the not-ready case, with the flag already written. -/
theorem reconcileInfrastructure_ready_overwrite (env : InfraEnv) (m : Machine) (obj : UObj)
    (failureReason failureMessage : String) (rdy : Bool)
    (hc : env.ext.convertErr = none) (hg : env.ext.getResult = .ok obj)
    (hp : env.ext.isPaused = false) (hh : env.ext.newHelperErr = none)
    (hs : env.ext.setCtrlRefErr = none) (hpa : env.ext.patchErr = none)
    (hw : env.ext.watchErr = none)
    (hf : env.ext.failuresFrom = .ok (failureReason, failureMessage))
    (hdel : isZeroTime obj.deletionTimestamp = true)
    (hr : env.isReady = .ok rdy) :
    (reconcileInfrastructure env m).machine.status.infrastructureReady = rdy ∧
    (rdy = false →
      (reconcileInfrastructure env m).err
          = some (.wrap (infraNotReadyMsg m) (.requeueAfter externalReadyWait)) ∧
      isRequeueAfter (.wrap (infraNotReadyMsg m) (.requeueAfter externalReadyWait)) = true) := by
  have hext := reconcileExternal_success_eq env.ext m m.spec.infrastructureRef obj
    failureReason failureMessage hc hg hp hh hs hpa hw hf
  cases rdy with
  | false =>
    refine ⟨?_, fun _ => ⟨?_, rfl⟩⟩ <;>
      simp [reconcileInfrastructure, hext, labeledObj_deletionTimestamp, hdel, hr]
  | true =>
    refine ⟨?_, fun h => by cases h⟩
    rcases hpid : env.providerID with epid | pid <;>
      rcases haddr : env.addresses with ea | addrs <;>
        rcases hfd : env.failureDomain with ef | fd
    all_goals try by_cases hpe : pid = ""
    all_goals try by_cases hea : ea = GoError.fieldNotFound
    all_goals try by_cases hef : ef = GoError.fieldNotFound
    all_goals simp_all [reconcileInfrastructure, hext, labeledObj_deletionTimestamp]

/-- Witness for C10: a previously-ready Machine is downgraded when the
provider reports not ready, and the RetryAfter error is returned with the
flag already false. -/
theorem reconcileInfrastructure_ready_overwrite_witness :
    machineInfraReady.status.infrastructureReady = true ∧
    infraEnvNotReady.isReady = .ok false ∧
    ((reconcileInfrastructure infraEnvNotReady machineInfraReady).machine.status.infrastructureReady
        = false ∧
      (false = false →
        (reconcileInfrastructure infraEnvNotReady machineInfraReady).err
            = some (.wrap (infraNotReadyMsg machineInfraReady) (.requeueAfter externalReadyWait)) ∧
        isRequeueAfter (.wrap (infraNotReadyMsg machineInfraReady) (.requeueAfter externalReadyWait))
            = true)) :=
  ⟨rfl, rfl,
    reconcileInfrastructure_ready_overwrite infraEnvNotReady machineInfraReady objA "" "" false
      rfl rfl rfl rfl rfl rfl rfl rfl rfl rfl⟩

/-! ## C9: failure fields are sticky -/

/-- `reconcileExternal` never clears a failure field: it only ever writes
`some` values into them. -/
theorem reconcileExternal_failure_sticky (env : ExtEnv) (m : Machine) (ref : ObjectReference) :
    (m.status.failureReason.isSome = true →
      (reconcileExternal env m ref).machine.status.failureReason.isSome = true) ∧
    (m.status.failureMessage.isSome = true →
      (reconcileExternal env m ref).machine.status.failureMessage.isSome = true) := by
  constructor <;> intro h <;>
    · unfold reconcileExternal
      repeat' split
      all_goals simp_all

/-- `reconcileBootstrap` never clears a failure field (case with a
bootstrap config reference present). -/
theorem reconcileBootstrap_sticky_aux (env : BootstrapEnv) (m : Machine) (ref : ObjectReference)
    (href : m.spec.bootstrap.configRef = some ref) :
    (m.status.failureReason.isSome = true →
      (reconcileBootstrap env m).machine.status.failureReason.isSome = true) ∧
    (m.status.failureMessage.isSome = true →
      (reconcileBootstrap env m).machine.status.failureMessage.isSome = true) := by
  have h1 := (reconcileExternal_failure_sticky env.ext m ref).1
  have h2 := (reconcileExternal_failure_sticky env.ext m ref).2
  constructor <;> intro h <;>
    rcases hro : (reconcileExternal env.ext m ref).output with e | pc <;>
      try rcases pc with - | obj
  all_goals try by_cases hsec :
    (reconcileExternal env.ext m ref).machine.spec.bootstrap.dataSecretName.isSome = true
  all_goals try by_cases hdz : isZeroTime obj.deletionTimestamp = true
  all_goals try rcases hrr : env.isReady with er | rdy
  all_goals try by_cases hrt : rdy = true
  all_goals try rcases hds : env.dataSecretName with es | secretName
  all_goals try by_cases hse : secretName = ""
  all_goals simp_all [reconcileBootstrap]

/-- `reconcileBootstrap` never clears a failure field. -/
theorem reconcileBootstrap_failure_sticky (env : BootstrapEnv) (m : Machine) :
    (m.status.failureReason.isSome = true →
      (reconcileBootstrap env m).machine.status.failureReason.isSome = true) ∧
    (m.status.failureMessage.isSome = true →
      (reconcileBootstrap env m).machine.status.failureMessage.isSome = true) := by
  rcases href : m.spec.bootstrap.configRef with - | ref
  · constructor <;> intro h <;> simp_all [reconcileBootstrap]
  · exact reconcileBootstrap_sticky_aux env m ref href

set_option maxHeartbeats 2000000 in
/-- `reconcileInfrastructure` never clears a failure field: the terminal
path writes `some` values and every other path leaves them as the external
reconcile left them. -/
theorem reconcileInfrastructure_failure_sticky (env : InfraEnv) (m : Machine) :
    (m.status.failureReason.isSome = true →
      (reconcileInfrastructure env m).machine.status.failureReason.isSome = true) ∧
    (m.status.failureMessage.isSome = true →
      (reconcileInfrastructure env m).machine.status.failureMessage.isSome = true) := by
  have h1 := (reconcileExternal_failure_sticky env.ext m m.spec.infrastructureRef).1
  have h2 := (reconcileExternal_failure_sticky env.ext m m.spec.infrastructureRef).2
  constructor <;> intro h <;>
    rcases hro : (reconcileExternal env.ext m m.spec.infrastructureRef).output with e | pc <;>
      try rcases pc with - | obj
  all_goals try by_cases hcm :
    (reconcileExternal env.ext m m.spec.infrastructureRef).machine.status.infrastructureReady
      = true
  all_goals try by_cases hsc : strContains e.message "could not find" = true
  all_goals try by_cases hdz : isZeroTime obj.deletionTimestamp = true
  all_goals try rcases hrr : env.isReady with er | rdy
  all_goals try by_cases hrt : rdy = true
  all_goals try rcases hpid : env.providerID with epid | pid
  all_goals try by_cases hpe : pid = ""
  all_goals try rcases haddr : env.addresses with ea | addrs
  all_goals try by_cases hea : ea = GoError.fieldNotFound
  all_goals try rcases hfd : env.failureDomain with ef | fd
  all_goals try by_cases hef : ef = GoError.fieldNotFound
  all_goals simp_all [reconcileInfrastructure]

/-- C9: no operation of this core ever assigns `none` to
`Status.FailureReason` or `Status.FailureMessage`: whenever a failure field
is non-nil on entry it is still non-nil after `reconcilePhase`,
`reconcileExternal`, `reconcileBootstrap` and `reconcileInfrastructure`,
for every environment — a recorded terminal failure is sticky within this
core. -/
theorem failure_fields_sticky :
    (∀ (now : Nat) (m : Machine),
      (m.status.failureReason.isSome = true →
        (reconcilePhase now m).status.failureReason.isSome = true) ∧
      (m.status.failureMessage.isSome = true →
        (reconcilePhase now m).status.failureMessage.isSome = true)) ∧
    (∀ (env : ExtEnv) (m : Machine) (ref : ObjectReference),
      (m.status.failureReason.isSome = true →
        (reconcileExternal env m ref).machine.status.failureReason.isSome = true) ∧
      (m.status.failureMessage.isSome = true →
        (reconcileExternal env m ref).machine.status.failureMessage.isSome = true)) ∧
    (∀ (env : BootstrapEnv) (m : Machine),
      (m.status.failureReason.isSome = true →
        (reconcileBootstrap env m).machine.status.failureReason.isSome = true) ∧
      (m.status.failureMessage.isSome = true →
        (reconcileBootstrap env m).machine.status.failureMessage.isSome = true)) ∧
    (∀ (env : InfraEnv) (m : Machine),
      (m.status.failureReason.isSome = true →
        (reconcileInfrastructure env m).machine.status.failureReason.isSome = true) ∧
      (m.status.failureMessage.isSome = true →
        (reconcileInfrastructure env m).machine.status.failureMessage.isSome = true)) := by
  refine ⟨fun now m => ⟨fun h => ?_, fun h => ?_⟩, reconcileExternal_failure_sticky,
    reconcileBootstrap_failure_sticky, reconcileInfrastructure_failure_sticky⟩
  · rw [reconcilePhase_failureReason]; exact h
  · rw [reconcilePhase_failureMessage]; exact h

/-- Witness for C9 at a concrete failed Machine: every operation keeps
both failure fields non-nil. -/
theorem failure_fields_sticky_witness :
    machineFailedDeleting.status.failureReason.isSome = true ∧
    machineFailedDeleting.status.failureMessage.isSome = true ∧
    (reconcilePhase 3 machineFailedDeleting).status.failureReason.isSome = true ∧
    (reconcileExternal extEnvOK machineFailedDeleting refA).machine.status.failureMessage.isSome
      = true ∧
    (reconcileBootstrap bootstrapEnvOK machineFailedDeleting).machine.status.failureReason.isSome
      = true ∧
    (reconcileInfrastructure infraEnvOK machineFailedDeleting).machine.status.failureMessage.isSome
      = true :=
  ⟨rfl, rfl,
    (failure_fields_sticky.1 3 machineFailedDeleting).1 rfl,
    (failure_fields_sticky.2.1 extEnvOK machineFailedDeleting refA).2 rfl,
    (failure_fields_sticky.2.2.1 bootstrapEnvOK machineFailedDeleting).1 rfl,
    (failure_fields_sticky.2.2.2 infraEnvOK machineFailedDeleting).2 rfl⟩

end CAPI
